import Mathlib

/-!
Shallow embedding of the compliance evaluation engine of
`src/src/application/demo1.py` (pandas batch audit processor).

Data rows are modelled as Lean structures mirroring the three input
dataframes (`audit_data`, `condition_data`, `registration_data`); pandas
operations are modelled as list operations:
  * dataframe boolean filtering  -> `List.filter`
  * `iloc[0]` on a filtered frame -> first element / `List.find?`
  * inner `pd.merge` on keys      -> nested filter/map (`mergeAuditRegistration`)
  * `groupby` + per-group loop    -> distinct keys + `List.filter` per key
  * Python `dict` accumulation    -> association list with replace-or-append
                                     insertion (`dictInsert`)
Numeric values (audit `value`, registration `qty`, rule
`condition_min_value`, `group_min_value`) are embedded as `Int`, matching
Python integer arithmetic.  Result dictionaries whose branches emit
different key sets use `Option` fields for the keys that are present only
in some branches; purely cosmetic keys (`score`, `message`) are omitted.
-/

/-- Verdict status string: the code only ever writes PASS or FAIL. -/
inductive Status where
  | PASS
  | FAIL
deriving DecidableEq, Repr

/-- One row of `audit_data` (tableA): customer_id, program_type, group, value. -/
structure AuditRow where
  customer_id : String
  program_type : String
  group : String
  value : Int
deriving DecidableEq, Repr

/-- One row of `condition_data` (tableB): group, program_type,
condition_min_value, condition_point, group_min_value. -/
structure ConditionRow where
  group : String
  program_type : String
  condition_min_value : Int
  condition_point : Int
  group_min_value : Int
deriving DecidableEq, Repr

/-- One row of `registration_data` (tableC): customer_id, program_type, qty. -/
structure RegistrationRow where
  customer_id : String
  program_type : String
  qty : Int
deriving DecidableEq, Repr

/-- One row of the inner merge of a customer's audit rows with their
registration rows on (customer_id, program_type). -/
structure MergedRow where
  customer_id : String
  program_type : String
  group : String
  value : Int
  qty : Int
deriving DecidableEq, Repr

/-- Result dict of `handle_fake_picture_program` / `handle_normal_program`.
Keys absent in a branch of the Python code are `none` here. -/
structure ProgramResult where
  program_type : String
  pass_status : Status
  reason : String
  audit_value : Int
  required_value : Option Int
  registration_qty : Option Int
  condition_min_value : Option Int
  deficit : Option Int
deriving DecidableEq, Repr

/-- Result dict of `process_single_group`. -/
structure GroupResult where
  group : String
  group_status : Status
  reason : Option String
  passed_programs : Option Nat
  required_programs : Option Int
  program_results : List (String × ProgramResult)
deriving DecidableEq, Repr

/-- Result dict of `process_single_customer`. -/
structure CustomerResult where
  customer_id : String
  overall_status : Status
  reason : String
  group_results : List (String × GroupResult)
deriving DecidableEq, Repr

/-- Python `dict` assignment `d[k] = v`: replace the value in place if the
key exists, otherwise append the pair at the end. -/
def dictInsert {α : Type} (d : List (String × α)) (k : String) (v : α) :
    List (String × α) :=
  if d.any (fun p => p.1 == k) then
    d.map (fun p => if p.1 == k then (k, v) else p)
  else
    d ++ [(k, v)]

/-- `handle_fake_picture_program` (demo1.py lines 368-388): FAIL iff the
audited value is > 0; quantity and rules are never consulted. -/
def handle_fake_picture_program (audit_value : Int) : ProgramResult :=
  if audit_value > 0 then
    { program_type := "fake_picture"
      pass_status := Status.FAIL
      reason := "FAKE_PICTURE_DETECTED"
      audit_value := audit_value
      required_value := none
      registration_qty := none
      condition_min_value := none
      deficit := none }
  else
    { program_type := "fake_picture"
      pass_status := Status.PASS
      reason := "NO_FAKE_PICTURE"
      audit_value := audit_value
      required_value := none
      registration_qty := none
      condition_min_value := none
      deficit := none }

/-- `handle_normal_program` (demo1.py lines 390-431): look up the first
condition row for this program among the group's conditions; if none,
FAIL with NO_CONDITION and required_value = 0; otherwise compare the
audited value against condition_min_value * registration_qty. -/
def handle_normal_program (program_type : String) (audit_value : Int)
    (registration_qty : Int) (group_conditions : List ConditionRow) :
    ProgramResult :=
  match group_conditions.find? (fun c => c.program_type == program_type) with
  | none =>
      { program_type := program_type
        pass_status := Status.FAIL
        reason := "NO_CONDITION"
        audit_value := audit_value
        required_value := some 0
        registration_qty := none
        condition_min_value := none
        deficit := none }
  | some cond =>
      let required_value := cond.condition_min_value * registration_qty
      { program_type := program_type
        pass_status :=
          if audit_value ≥ required_value then Status.PASS else Status.FAIL
        reason := "NORMAL_PROCESSING"
        audit_value := audit_value
        required_value := some required_value
        registration_qty := some registration_qty
        condition_min_value := some cond.condition_min_value
        deficit := some (max 0 (required_value - audit_value)) }

/-- Per-row dispatch inside the loop of `process_single_group`
(demo1.py lines 341-348): sentinel program code uses the exception
branch, everything else the threshold branch. -/
def evalProgramRow (row : MergedRow) (group_conditions : List ConditionRow) :
    ProgramResult :=
  if row.program_type == "fake_picture" then
    handle_fake_picture_program row.value
  else
    handle_normal_program row.program_type row.value row.qty group_conditions

/-- Loop body of `process_single_group`: record the row's verdict under its
program_type key and bump the passed counter when the verdict is PASS. -/
def groupStep (group_conditions : List ConditionRow)
    (acc : List (String × ProgramResult) × Nat) (row : MergedRow) :
    List (String × ProgramResult) × Nat :=
  let program_result := evalProgramRow row group_conditions
  (dictInsert acc.1 row.program_type program_result,
   if program_result.pass_status = Status.PASS then acc.2 + 1 else acc.2)

/-- `process_single_group` (demo1.py lines 317-366). -/
def process_single_group (group_name : String) (group_data : List MergedRow)
    (condition_data : List ConditionRow) : GroupResult :=
  match condition_data.filter (fun c => c.group == group_name) with
  | [] =>
      { group := group_name
        group_status := Status.FAIL
        reason := some "NO_CONDITIONS"
        passed_programs := none
        required_programs := none
        program_results := [] }
  | c0 :: cs =>
      let res := group_data.foldl (groupStep (c0 :: cs)) ([], 0)
      { group := group_name
        group_status :=
          if (res.2 : Int) ≥ c0.group_min_value then Status.PASS
          else Status.FAIL
        reason := none
        passed_programs := some res.2
        required_programs := some c0.group_min_value
        program_results := res.1 }

/-- `determine_overall_status` (demo1.py lines 433-443): FAIL as soon as
some group FAILed, otherwise PASS. -/
def determine_overall_status
    (group_results : List (String × GroupResult)) : Status :=
  if group_results.any (fun p => p.2.group_status = Status.FAIL) then
    Status.FAIL
  else
    Status.PASS

/-- Inner `pd.merge` of `process_single_customer` (demo1.py lines 284-289):
each audit row is paired with every registration row agreeing on
(customer_id, program_type). -/
def mergeAuditRegistration (customer_audit : List AuditRow)
    (customer_registration : List RegistrationRow) : List MergedRow :=
  customer_audit.foldr
    (fun a acc =>
      ((customer_registration.filter
          (fun r => r.customer_id == a.customer_id &&
                    r.program_type == a.program_type)).map
        (fun r =>
          { customer_id := a.customer_id
            program_type := a.program_type
            group := a.group
            value := a.value
            qty := r.qty })) ++ acc)
    []

/-- Distinct key values of a list, in order of first appearance
(the key set a pandas `groupby` iterates over). -/
def distinctKeys {α : Type} (f : α → String) (l : List α) : List String :=
  l.foldl (fun acc x => if acc.contains (f x) then acc else acc ++ [f x]) []

/-- `process_single_customer` (demo1.py lines 265-315). -/
def process_single_customer (customer_id : String)
    (customer_audit : List AuditRow) (condition_data : List ConditionRow)
    (registration_data : List RegistrationRow) : CustomerResult :=
  let customer_registration :=
    registration_data.filter (fun r => r.customer_id == customer_id)
  if customer_registration.isEmpty then
    { customer_id := customer_id
      overall_status := Status.FAIL
      reason := "NO_REGISTRATION"
      group_results := [] }
  else
    let merged_data := mergeAuditRegistration customer_audit customer_registration
    if merged_data.isEmpty then
      { customer_id := customer_id
        overall_status := Status.FAIL
        reason := "NO_AUDIT_DATA"
        group_results := [] }
    else
      let group_results :=
        (distinctKeys (fun r => r.group) merged_data).map
          (fun g =>
            (g, process_single_group g
                  (merged_data.filter (fun r => r.group == g)) condition_data))
      { customer_id := customer_id
        overall_status := determine_overall_status group_results
        reason := "PROCESSED"
        group_results := group_results }

/-- `process_audit_for_all_customers` (demo1.py lines 237-263): iterate over
the customers present in the audit data, one result per audit customer. -/
def process_audit_for_all_customers (audit_data : List AuditRow)
    (condition_data : List ConditionRow)
    (registration_data : List RegistrationRow) :
    List (String × CustomerResult) :=
  (distinctKeys (fun a => a.customer_id) audit_data).map
    (fun cid =>
      (cid, process_single_customer cid
              (audit_data.filter (fun a => a.customer_id == cid))
              condition_data registration_data))

/-- `fake_picture_detected` computation of `save_results_to_database`
(demo1.py lines 470-474): true iff some program verdict of some group is a
FAILed fake_picture verdict. -/
def fake_picture_detected (result : CustomerResult) : Bool :=
  result.group_results.any (fun g =>
    g.2.program_results.any (fun p =>
      p.2.program_type == "fake_picture" && p.2.pass_status = Status.FAIL))

/-! ## Helper lemmas (shared, not claim theorems) -/

/-- Both branches of `handle_normal_program` echo the program code. -/
lemma handle_normal_program_program_type (pt : String) (v q : Int)
    (conds : List ConditionRow) :
    (handle_normal_program pt v q conds).program_type = pt := by
  unfold handle_normal_program
  cases conds.find? (fun c => c.program_type == pt) <;> rfl

/-- The passed counter threaded by `groupStep` counts the rows whose
verdict is PASS. -/
lemma foldl_groupStep_snd (gconds : List ConditionRow) (rows : List MergedRow)
    (d : List (String × ProgramResult)) (n : Nat) :
    (rows.foldl (groupStep gconds) (d, n)).2 =
      n + rows.countP
        (fun r => (evalProgramRow r gconds).pass_status = Status.PASS) := by
  induction rows generalizing d n with
  | nil => simp
  | cons r rs ih =>
      simp only [List.foldl_cons, List.countP_cons]
      rw [show List.foldl (groupStep gconds) (groupStep gconds (d, n) r) rs =
            List.foldl (groupStep gconds)
              (dictInsert d r.program_type (evalProgramRow r gconds),
               if (evalProgramRow r gconds).pass_status = Status.PASS
               then n + 1 else n) rs from rfl]
      rw [ih]
      by_cases hp : (evalProgramRow r gconds).pass_status = Status.PASS
      · simp [hp]
        omega
      · simp [hp]

/-- Evaluation of `process_single_group` when the group has at least one
configured condition row. -/
lemma process_single_group_eq (gname : String) (rows : List MergedRow)
    (conds : List ConditionRow) (c0 : ConditionRow) (cs : List ConditionRow)
    (hc : conds.filter (fun c => c.group == gname) = c0 :: cs) :
    process_single_group gname rows conds =
      { group := gname
        group_status :=
          if ((rows.countP (fun r =>
                (evalProgramRow r (c0 :: cs)).pass_status = Status.PASS) : Int)
              ≥ c0.group_min_value)
          then Status.PASS else Status.FAIL
        reason := none
        passed_programs :=
          some (rows.countP (fun r =>
            (evalProgramRow r (c0 :: cs)).pass_status = Status.PASS))
        required_programs := some c0.group_min_value
        program_results := (rows.foldl (groupStep (c0 :: cs)) ([], 0)).1 } := by
  unfold process_single_group
  rw [hc]
  have hs := foldl_groupStep_snd (c0 :: cs) rows [] 0
  simp only [hs, Nat.zero_add]

/-- Membership in a Python-dict insertion. -/
lemma dictInsert_mem {α : Type} (d : List (String × α)) (k : String) (v : α) :
    ∀ p ∈ dictInsert d k v, p ∈ d ∨ p = (k, v) := by
  intro p hp
  unfold dictInsert at hp
  split at hp
  · obtain ⟨q, hq, hqe⟩ := List.mem_map.1 hp
    by_cases hk : q.1 == k
    · right
      rw [if_pos hk] at hqe
      exact hqe.symm
    · left
      rw [if_neg hk] at hqe
      exact hqe ▸ hq
  · rcases List.mem_append.1 hp with h | h
    · exact Or.inl h
    · right
      simpa using h

/-- Every verdict accumulated by the group loop is either inherited from the
initial dict or is the evaluation of one of the rows. -/
lemma foldl_groupStep_fst_mem (gconds : List ConditionRow)
    (rows : List MergedRow) :
    ∀ (d : List (String × ProgramResult)) (n : Nat),
      ∀ p ∈ (rows.foldl (groupStep gconds) (d, n)).1,
        p ∈ d ∨ ∃ r ∈ rows, p.2 = evalProgramRow r gconds := by
  induction rows with
  | nil => intro d n p hp; exact Or.inl hp
  | cons r rs ih =>
      intro d n p hp
      simp only [List.foldl_cons] at hp
      rcases ih (dictInsert d r.program_type (evalProgramRow r gconds)) _ p hp with
        h | ⟨r', hr', he⟩
      · rcases dictInsert_mem _ _ _ p h with h2 | h2
        · exact Or.inl h2
        · exact Or.inr ⟨r, List.mem_cons_self r rs, by rw [h2]⟩
      · exact Or.inr ⟨r', List.mem_cons_of_mem r hr', he⟩

/-- Every merged row takes its (customer_id, program_type) from a matching
registration row. -/
lemma merge_rows_from_registration (caudit : List AuditRow)
    (regs : List RegistrationRow) :
    ∀ m ∈ mergeAuditRegistration caudit regs,
      ∃ r ∈ regs, r.program_type = m.program_type ∧
        r.customer_id = m.customer_id := by
  induction caudit with
  | nil => intro m hm; simp [mergeAuditRegistration] at hm
  | cons a t ih =>
      intro m hm
      rcases List.mem_append.1 hm with h | h
      · obtain ⟨r, hr, he⟩ := List.mem_map.1 h
        obtain ⟨hrr, hcond⟩ := List.mem_filter.1 hr
        simp only [Bool.and_eq_true, beq_iff_eq] at hcond
        refine ⟨r, hrr, ?_, ?_⟩
        · rw [hcond.2, ← he]
        · rw [hcond.1, ← he]
      · exact ih m h

/-- Unfolding of the merge on a cons cell. -/
lemma mergeAuditRegistration_cons (a : AuditRow) (t : List AuditRow)
    (regs : List RegistrationRow) :
    mergeAuditRegistration (a :: t) regs =
      ((regs.filter
          (fun r => r.customer_id == a.customer_id &&
                    r.program_type == a.program_type)).map
        (fun r =>
          { customer_id := a.customer_id
            program_type := a.program_type
            group := a.group
            value := a.value
            qty := r.qty })) ++ mergeAuditRegistration t regs := rfl

/-- When no registration row is for the sentinel program, sentinel audit
rows are dropped by the inner join: merging after filtering them away
gives the same merged rows. -/
lemma merge_drop_sentinel (caudit : List AuditRow)
    (regs : List RegistrationRow)
    (h : ∀ r ∈ regs, r.program_type ≠ "fake_picture") :
    mergeAuditRegistration
        (caudit.filter (fun a => !(a.program_type == "fake_picture"))) regs =
      mergeAuditRegistration caudit regs := by
  induction caudit with
  | nil => rfl
  | cons a t ih =>
      by_cases ha : a.program_type = "fake_picture"
      · have hfil : regs.filter
            (fun r => r.customer_id == a.customer_id &&
                      r.program_type == a.program_type) = [] := by
          rw [List.filter_eq_nil_iff]
          intro r hr
          simp only [Bool.and_eq_true, beq_iff_eq, not_and]
          intro _ hpt
          exact h r hr (hpt.trans ha)
        have hdrop : (a :: t).filter
              (fun x => !(x.program_type == "fake_picture")) =
            t.filter (fun x => !(x.program_type == "fake_picture")) := by
          simp [List.filter_cons, ha]
        rw [hdrop, ih, mergeAuditRegistration_cons, hfil]
        simp
      · have hkeep : (a :: t).filter
              (fun x => !(x.program_type == "fake_picture")) =
            a :: t.filter (fun x => !(x.program_type == "fake_picture")) := by
          simp [List.filter_cons, ha]
        rw [hkeep, mergeAuditRegistration_cons, mergeAuditRegistration_cons, ih]

/-- Evaluation of `process_single_group` when the group has no configured
condition rows. -/
lemma process_single_group_nil (gname : String) (rows : List MergedRow)
    (conds : List ConditionRow)
    (hc : conds.filter (fun c => c.group == gname) = []) :
    process_single_group gname rows conds =
      { group := gname
        group_status := Status.FAIL
        reason := some "NO_CONDITIONS"
        passed_programs := none
        required_programs := none
        program_results := [] } := by
  unfold process_single_group
  rw [hc]

/-- A group evaluated over rows none of which is the sentinel program never
records a sentinel program verdict. -/
lemma process_single_group_no_sentinel (gname : String)
    (rows : List MergedRow) (conds : List ConditionRow)
    (h : ∀ r ∈ rows, r.program_type ≠ "fake_picture") :
    ∀ p ∈ (process_single_group gname rows conds).program_results,
      p.2.program_type ≠ "fake_picture" := by
  intro p hp
  cases hfc : conds.filter (fun c => c.group == gname) with
  | nil =>
      rw [process_single_group_nil gname rows conds hfc] at hp
      simp at hp
  | cons c0 cs =>
      rw [process_single_group_eq gname rows conds c0 cs hfc] at hp
      rcases foldl_groupStep_fst_mem (c0 :: cs) rows [] 0 p hp with
        h0 | ⟨r, hr, he⟩
      · simp at h0
      · rw [he]
        have hrpt := h r hr
        simp [evalProgramRow, hrpt, handle_normal_program_program_type]

/-! ## Claim theorems -/

/-- C1: threshold branch of the program evaluator. When a rule row is found
for the program (first matching row of the group's conditions), the
required value is min_value * quantity; measured ≥ required gives PASS with
deficit 0, measured < required gives FAIL with nonnegative deficit
required - measured; when no rule row matches, the verdict is FAIL with
reason NO_CONDITION and required_value 0. -/
theorem c1_threshold_rule (pt : String) (v q : Int)
    (conds : List ConditionRow) (c : ConditionRow) :
    (conds.find? (fun x => x.program_type == pt) = some c →
      (handle_normal_program pt v q conds).required_value =
        some (c.condition_min_value * q) ∧
      (v ≥ c.condition_min_value * q →
        (handle_normal_program pt v q conds).pass_status = Status.PASS ∧
        (handle_normal_program pt v q conds).deficit = some 0) ∧
      (v < c.condition_min_value * q →
        (handle_normal_program pt v q conds).pass_status = Status.FAIL ∧
        (handle_normal_program pt v q conds).deficit =
          some (c.condition_min_value * q - v) ∧
        0 ≤ c.condition_min_value * q - v)) ∧
    (conds.find? (fun x => x.program_type == pt) = none →
      (handle_normal_program pt v q conds).pass_status = Status.FAIL ∧
      (handle_normal_program pt v q conds).reason = "NO_CONDITION" ∧
      (handle_normal_program pt v q conds).required_value = some 0) := by
  constructor
  · intro h
    refine ⟨?_, fun hge => ⟨?_, ?_⟩, fun hlt => ⟨?_, ?_, by omega⟩⟩
    · simp [handle_normal_program, h]
    · simp [handle_normal_program, h, hge]
    · simp only [handle_normal_program, h, Option.some_inj]
      exact max_eq_left (by omega)
    · simp [handle_normal_program, h, not_le.2 hlt]
    · simp only [handle_normal_program, h, Option.some_inj]
      exact max_eq_right (by omega)
  · intro h
    simp [handle_normal_program, h]

/-- Witness for C1 at Scenario A/B data (quantity 2, min_value 40,
measured 90 then 70) and at a program with no configured rule. -/
theorem c1_threshold_rule_witness :
    ((handle_normal_program "P1" 90 2 [⟨"G1", "P1", 40, 1, 2⟩]).pass_status =
        Status.PASS ∧
      (handle_normal_program "P1" 90 2 [⟨"G1", "P1", 40, 1, 2⟩]).deficit =
        some 0) ∧
    ((handle_normal_program "P1" 70 2 [⟨"G1", "P1", 40, 1, 2⟩]).pass_status =
        Status.FAIL ∧
      (handle_normal_program "P1" 70 2 [⟨"G1", "P1", 40, 1, 2⟩]).deficit =
        some ((⟨"G1", "P1", 40, 1, 2⟩ : ConditionRow).condition_min_value * 2 - 70) ∧
      (0 : Int) ≤ (⟨"G1", "P1", 40, 1, 2⟩ : ConditionRow).condition_min_value * 2 - 70) ∧
    ((handle_normal_program "P9" 5 1 [⟨"G1", "P1", 40, 1, 2⟩]).pass_status =
        Status.FAIL ∧
      (handle_normal_program "P9" 5 1 [⟨"G1", "P1", 40, 1, 2⟩]).reason =
        "NO_CONDITION" ∧
      (handle_normal_program "P9" 5 1 [⟨"G1", "P1", 40, 1, 2⟩]).required_value =
        some 0) :=
  ⟨((c1_threshold_rule "P1" 90 2 [⟨"G1", "P1", 40, 1, 2⟩]
        ⟨"G1", "P1", 40, 1, 2⟩).1 (by decide)).2.1 (by decide),
   ((c1_threshold_rule "P1" 70 2 [⟨"G1", "P1", 40, 1, 2⟩]
        ⟨"G1", "P1", 40, 1, 2⟩).1 (by decide)).2.2 (by decide),
   (c1_threshold_rule "P9" 5 1 [⟨"G1", "P1", 40, 1, 2⟩]
        ⟨"G1", "P1", 40, 1, 2⟩).2 (by decide)⟩

/-- C3: sentinel-program evaluation. The verdict of a `fake_picture` row is
the same for any registration quantity and any rule configuration, it is
FAIL exactly when the measured value is positive, and (for the
nonnegative measured values the pipeline produces) PASS exactly when the
measured value is zero. -/
theorem c3_sentinel_eval (cid g : String) (v : Int) (hv : 0 ≤ v)
    (q1 q2 : Int) (conds1 conds2 : List ConditionRow) :
    evalProgramRow ⟨cid, "fake_picture", g, v, q1⟩ conds1 =
      evalProgramRow ⟨cid, "fake_picture", g, v, q2⟩ conds2 ∧
    ((evalProgramRow ⟨cid, "fake_picture", g, v, q1⟩ conds1).pass_status =
        Status.FAIL ↔ 0 < v) ∧
    ((evalProgramRow ⟨cid, "fake_picture", g, v, q1⟩ conds1).pass_status =
        Status.PASS ↔ v = 0) := by
  simp only [evalProgramRow]
  unfold handle_fake_picture_program
  by_cases hp : 0 < v
  · simp [hp]
    omega
  · simp [hp]
    omega

/-- Witness for C3 at measured value 3 (Scenario C, FAIL side). -/
theorem c3_sentinel_eval_witness :
    evalProgramRow ⟨"C", "fake_picture", "G", 3, 1⟩ [] =
      evalProgramRow ⟨"C", "fake_picture", "G", 3, 2⟩
        [⟨"G", "fake_picture", 40, 1, 2⟩] ∧
    ((evalProgramRow ⟨"C", "fake_picture", "G", 3, 1⟩ []).pass_status =
        Status.FAIL ↔ (0 : Int) < 3) ∧
    ((evalProgramRow ⟨"C", "fake_picture", "G", 3, 1⟩ []).pass_status =
        Status.PASS ↔ (3 : Int) = 0) :=
  c3_sentinel_eval "C" "G" 3 (by decide) 1 2 [] [⟨"G", "fake_picture", 40, 1, 2⟩]

/-- C5: the customer-level aggregation is an AND over the group verdicts:
overall PASS exactly when every group verdict is PASS. -/
theorem c5_overall_all_pass (gs : List (String × GroupResult)) :
    determine_overall_status gs = Status.PASS ↔
      ∀ p ∈ gs, p.2.group_status = Status.PASS := by
  unfold determine_overall_status
  split_ifs with h
  · simp only [List.any_eq_true, decide_eq_true_eq] at h
    obtain ⟨p, hp, hf⟩ := h
    constructor
    · intro hab
      exact absurd hab (by decide)
    · intro hall
      rw [hall p hp] at hf
      exact absurd hf (by decide)
  · simp only [List.any_eq_true, decide_eq_true_eq, not_exists] at h
    push_neg at h
    constructor
    · intro _ p hp
      cases hs : p.2.group_status
      · rfl
      · exact absurd hs (h p hp)
    · intro _
      rfl

/-- C2: group aggregation. A group with no configured rules FAILs with
reason NO_CONDITIONS; otherwise required_count is the group_min_value of
the first rule of the group, passed_count is the number of the customer's
program verdicts in the group with status PASS, and the group PASSes
exactly when passed_count ≥ required_count. -/
theorem c2_group_quota (gname : String) (rows : List MergedRow)
    (conds : List ConditionRow) :
    (conds.filter (fun c => c.group == gname) = [] →
      (process_single_group gname rows conds).group_status = Status.FAIL ∧
      (process_single_group gname rows conds).reason = some "NO_CONDITIONS") ∧
    (∀ c0 cs, conds.filter (fun c => c.group == gname) = c0 :: cs →
      (process_single_group gname rows conds).passed_programs =
        some (rows.countP (fun r =>
          (evalProgramRow r (c0 :: cs)).pass_status = Status.PASS)) ∧
      (process_single_group gname rows conds).required_programs =
        some c0.group_min_value ∧
      ((process_single_group gname rows conds).group_status = Status.PASS ↔
        ((rows.countP (fun r =>
            (evalProgramRow r (c0 :: cs)).pass_status = Status.PASS) : Int) ≥
          c0.group_min_value))) := by
  constructor
  · intro h
    unfold process_single_group
    rw [h]
    exact ⟨rfl, rfl⟩
  · intro c0 cs h
    rw [process_single_group_eq gname rows conds c0 cs h]
    refine ⟨rfl, rfl, ?_⟩
    by_cases hq : ((rows.countP (fun r =>
        (evalProgramRow r (c0 :: cs)).pass_status = Status.PASS) : Int) ≥
      c0.group_min_value)
    · simp [hq]
    · simp [hq]

/-- Witness for C2 on Scenario-D shaped data: two configured programs with
quota 2; both rows pass, so the group passes; a group name with no rules
gives NO_CONDITIONS. -/
theorem c2_group_quota_witness :
    ((process_single_group "H" [⟨"C1", "P1", "H", 5, 1⟩]
        [⟨"G", "P1", 1, 1, 2⟩]).group_status = Status.FAIL ∧
      (process_single_group "H" [⟨"C1", "P1", "H", 5, 1⟩]
        [⟨"G", "P1", 1, 1, 2⟩]).reason = some "NO_CONDITIONS") ∧
    ((process_single_group "G"
        [⟨"C1", "P1", "G", 5, 1⟩, ⟨"C1", "P2", "G", 5, 1⟩]
        [⟨"G", "P1", 1, 1, 2⟩, ⟨"G", "P2", 1, 1, 2⟩]).passed_programs =
      some ([⟨"C1", "P1", "G", 5, 1⟩, ⟨"C1", "P2", "G", 5, 1⟩].countP
        (fun r => (evalProgramRow r
          ([⟨"G", "P1", 1, 1, 2⟩, ⟨"G", "P2", 1, 1, 2⟩] :
            List ConditionRow)).pass_status = Status.PASS)) ∧
      (process_single_group "G"
        [⟨"C1", "P1", "G", 5, 1⟩, ⟨"C1", "P2", "G", 5, 1⟩]
        [⟨"G", "P1", 1, 1, 2⟩, ⟨"G", "P2", 1, 1, 2⟩]).required_programs =
      some (⟨"G", "P1", 1, 1, 2⟩ : ConditionRow).group_min_value ∧
      ((process_single_group "G"
        [⟨"C1", "P1", "G", 5, 1⟩, ⟨"C1", "P2", "G", 5, 1⟩]
        [⟨"G", "P1", 1, 1, 2⟩, ⟨"G", "P2", 1, 1, 2⟩]).group_status =
          Status.PASS ↔
        (([⟨"C1", "P1", "G", 5, 1⟩, ⟨"C1", "P2", "G", 5, 1⟩].countP
          (fun r => (evalProgramRow r
            ([⟨"G", "P1", 1, 1, 2⟩, ⟨"G", "P2", 1, 1, 2⟩] :
              List ConditionRow)).pass_status = Status.PASS) : Int) ≥
          (⟨"G", "P1", 1, 1, 2⟩ : ConditionRow).group_min_value))) :=
  ⟨(c2_group_quota "H" [⟨"C1", "P1", "H", 5, 1⟩]
      [⟨"G", "P1", 1, 1, 2⟩]).1 (by decide),
   (c2_group_quota "G"
      [⟨"C1", "P1", "G", 5, 1⟩, ⟨"C1", "P2", "G", 5, 1⟩]
      [⟨"G", "P1", 1, 1, 2⟩, ⟨"G", "P2", 1, 1, 2⟩]).2
      ⟨"G", "P1", 1, 1, 2⟩ [⟨"G", "P2", 1, 1, 2⟩] (by decide)⟩

/-- C7: matcher failure modes of a single customer. With no registrations
the verdict is FAIL / NO_REGISTRATION with no group results; with
registrations but an empty audit-registration join the verdict is FAIL /
NO_AUDIT_DATA with no group results. -/
theorem c7_matcher_failures (cid : String) (caudit : List AuditRow)
    (conds : List ConditionRow) (regs : List RegistrationRow) :
    (regs.filter (fun r => r.customer_id == cid) = [] →
      process_single_customer cid caudit conds regs =
        { customer_id := cid
          overall_status := Status.FAIL
          reason := "NO_REGISTRATION"
          group_results := [] }) ∧
    (∀ r0 rs, regs.filter (fun r => r.customer_id == cid) = r0 :: rs →
      mergeAuditRegistration caudit (r0 :: rs) = [] →
      process_single_customer cid caudit conds regs =
        { customer_id := cid
          overall_status := Status.FAIL
          reason := "NO_AUDIT_DATA"
          group_results := [] }) := by
  constructor
  · intro h
    simp [process_single_customer, h]
  · intro r0 rs h hm
    simp [process_single_customer, h, hm]

/-- Witness for C7: a customer with no registration row, and a registered
customer with no audit rows at all (empty join). -/
theorem c7_matcher_failures_witness :
    process_single_customer "C" [⟨"C", "P1", "G", 4⟩] [] [] =
      { customer_id := "C"
        overall_status := Status.FAIL
        reason := "NO_REGISTRATION"
        group_results := [] } ∧
    process_single_customer "D" [] [] [⟨"D", "X", 1⟩] =
      { customer_id := "D"
        overall_status := Status.FAIL
        reason := "NO_AUDIT_DATA"
        group_results := [] } :=
  ⟨(c7_matcher_failures "C" [⟨"C", "P1", "G", 4⟩] [] []).1 (by decide),
   (c7_matcher_failures "D" [] [] [⟨"D", "X", 1⟩]).2
     ⟨"D", "X", 1⟩ [] (by decide) (by decide)⟩

/-- C4 counterexample: a customer whose sentinel verdict FAILs while the
owning group and the customer still PASS. Group G has rules for P1 and P2
with quota 2; the customer passes P1 and P2 and fails the sentinel
(measured 3 > 0): the sentinel FAIL is recorded (flag true) yet the group
and the overall status are PASS — the sentinel failure is not a
structural veto. -/
theorem c4_veto_counterexample :
    fake_picture_detected (process_single_customer "C1"
      [⟨"C1", "P1", "G", 5⟩, ⟨"C1", "P2", "G", 5⟩,
       ⟨"C1", "fake_picture", "G", 3⟩]
      [⟨"G", "P1", 1, 1, 2⟩, ⟨"G", "P2", 1, 1, 2⟩]
      [⟨"C1", "P1", 1⟩, ⟨"C1", "P2", 1⟩, ⟨"C1", "fake_picture", 1⟩]) =
      true ∧
    ((process_single_customer "C1"
      [⟨"C1", "P1", "G", 5⟩, ⟨"C1", "P2", "G", 5⟩,
       ⟨"C1", "fake_picture", "G", 3⟩]
      [⟨"G", "P1", 1, 1, 2⟩, ⟨"G", "P2", 1, 1, 2⟩]
      [⟨"C1", "P1", 1⟩, ⟨"C1", "P2", 1⟩,
       ⟨"C1", "fake_picture", 1⟩]).group_results.map
        (fun p => p.2.group_status)) = [Status.PASS] ∧
    (process_single_customer "C1"
      [⟨"C1", "P1", "G", 5⟩, ⟨"C1", "P2", "G", 5⟩,
       ⟨"C1", "fake_picture", "G", 3⟩]
      [⟨"G", "P1", 1, 1, 2⟩, ⟨"G", "P2", 1, 1, 2⟩]
      [⟨"C1", "P1", 1⟩, ⟨"C1", "P2", 1⟩,
       ⟨"C1", "fake_picture", 1⟩]).overall_status = Status.PASS := by
  decide

/-- C4 amended: a sentinel failure is not a veto; the sentinel verdict is
FAIL (and contributes nothing to passed_count) but the group fails only
when the quota is missed, i.e. group FAIL iff passed_count <
required_count. -/
theorem c4_sentinel_counts_toward_quota (gname : String)
    (rows : List MergedRow) (conds : List ConditionRow) (c0 : ConditionRow)
    (cs : List ConditionRow) (r0 : MergedRow)
    (hc : conds.filter (fun c => c.group == gname) = c0 :: cs)
    (_hr : r0 ∈ rows) (hs : r0.program_type = "fake_picture")
    (hv : 0 < r0.value) :
    (evalProgramRow r0 (c0 :: cs)).pass_status = Status.FAIL ∧
    ((process_single_group gname rows conds).group_status = Status.FAIL ↔
      ((rows.countP (fun r =>
          (evalProgramRow r (c0 :: cs)).pass_status = Status.PASS) : Int) <
        c0.group_min_value)) := by
  constructor
  · simp [evalProgramRow, hs, handle_fake_picture_program, hv]
  · rw [process_single_group_eq gname rows conds c0 cs hc]
    by_cases hq : ((rows.countP (fun r =>
        (evalProgramRow r (c0 :: cs)).pass_status = Status.PASS) : Int) ≥
      c0.group_min_value)
    · simp only [if_pos hq]
      constructor
      · intro hab
        exact absurd hab (by decide)
      · intro hlt
        omega
    · simp only [if_neg hq]
      constructor
      · intro _
        omega
      · intro _
        trivial

/-- Witness for C4 amended: sentinel FAILs and only one of two required
passes is reached, so the group FAILs by quota. -/
theorem c4_sentinel_counts_toward_quota_witness :
    (evalProgramRow ⟨"C1", "fake_picture", "G", 3, 1⟩
      ([⟨"G", "P1", 1, 1, 2⟩] : List ConditionRow)).pass_status =
      Status.FAIL ∧
    ((process_single_group "G"
        [⟨"C1", "P1", "G", 5, 1⟩, ⟨"C1", "fake_picture", "G", 3, 1⟩]
        [⟨"G", "P1", 1, 1, 2⟩]).group_status = Status.FAIL ↔
      (([⟨"C1", "P1", "G", 5, 1⟩, ⟨"C1", "fake_picture", "G", 3, 1⟩].countP
        (fun r => (evalProgramRow r
          ([⟨"G", "P1", 1, 1, 2⟩] : List ConditionRow)).pass_status =
            Status.PASS) : Int) <
        (⟨"G", "P1", 1, 1, 2⟩ : ConditionRow).group_min_value)) :=
  c4_sentinel_counts_toward_quota "G"
    [⟨"C1", "P1", "G", 5, 1⟩, ⟨"C1", "fake_picture", "G", 3, 1⟩]
    [⟨"G", "P1", 1, 1, 2⟩] ⟨"G", "P1", 1, 1, 2⟩ []
    ⟨"C1", "fake_picture", "G", 3, 1⟩ (by decide) (by decide) (by decide)
    (by decide)

/-- C6 counterexample: customer A appears in the registration set but has
no audit row, customer B has the only audit row; the batch result contains
no entry at all for A (in particular no NO_AUDIT_DATA verdict). -/
theorem c6_registered_only_customer_counterexample :
    (process_audit_for_all_customers
        [⟨"B", "X", "G", 1⟩] [] [⟨"A", "X", 1⟩]).find?
      (fun p => p.1 == "A") = none ∧
    ([⟨"A", "X", 1⟩] : List RegistrationRow).any
      (fun r => r.customer_id == "A") = true := by
  decide

/-- C6 amended: the batch run produces exactly one verdict per distinct
customer of the audit data, in order of first appearance; customers that
appear only in the registration data receive no verdict. -/
theorem c6_verdicts_exactly_audit_customers (audit : List AuditRow)
    (conds : List ConditionRow) (regs : List RegistrationRow) :
    (process_audit_for_all_customers audit conds regs).map Prod.fst =
      distinctKeys (fun a => a.customer_id) audit := by
  unfold process_audit_for_all_customers
  generalize distinctKeys (fun a => a.customer_id) audit = l
  induction l with
  | nil => rfl
  | cons x xs ih => simp [ih]

/-- C8 counterexample: no malformed-data rejection exists. A negative
min_value (malformed per the spec) and a measured value of 0 silently
yield PASS with the ordinary NORMAL_PROCESSING reason; likewise a
negative registration quantity. -/
theorem c8_silent_pass_counterexample :
    ((-1 : Int) < 0 ∧
      (handle_normal_program "P1" 0 1 [⟨"G", "P1", -1, 1, 1⟩]).pass_status =
        Status.PASS ∧
      (handle_normal_program "P1" 0 1 [⟨"G", "P1", -1, 1, 1⟩]).reason =
        "NORMAL_PROCESSING") ∧
    ((-2 : Int) < 0 ∧
      (handle_normal_program "P1" 0 (-2) [⟨"G", "P1", 1, 1, 1⟩]).pass_status =
        Status.PASS ∧
      (handle_normal_program "P1" 0 (-2) [⟨"G", "P1", 1, 1, 1⟩]).reason =
        "NORMAL_PROCESSING") := by
  decide

/-- C8 amended: the evaluator applies the threshold formula to negative
quantities and negative min_values exactly as to well-formed ones — the
result is always an ordinary NORMAL_PROCESSING verdict (never a
data-quality rejection), with PASS iff measured ≥ min_value * quantity. -/
theorem c8_no_malformed_rejection (pt : String) (v q : Int)
    (conds : List ConditionRow) (c0 : ConditionRow)
    (hf : conds.find? (fun c => c.program_type == pt) = some c0)
    (_hneg : c0.condition_min_value < 0 ∨ q < 0) :
    (handle_normal_program pt v q conds).reason = "NORMAL_PROCESSING" ∧
    ((handle_normal_program pt v q conds).pass_status = Status.PASS ↔
      v ≥ c0.condition_min_value * q) := by
  constructor
  · simp [handle_normal_program, hf]
  · by_cases hge : v ≥ c0.condition_min_value * q
    · simp [handle_normal_program, hf, hge]
    · simp [handle_normal_program, hf, hge]

/-- Witness for C8 amended at min_value = -1, quantity = 1, measured 0. -/
theorem c8_no_malformed_rejection_witness :
    (handle_normal_program "P1" 0 1 [⟨"G", "P1", -1, 1, 1⟩]).reason =
      "NORMAL_PROCESSING" ∧
    ((handle_normal_program "P1" 0 1 [⟨"G", "P1", -1, 1, 1⟩]).pass_status =
        Status.PASS ↔
      (0 : Int) ≥ (⟨"G", "P1", -1, 1, 1⟩ : ConditionRow).condition_min_value * 1) :=
  c8_no_malformed_rejection "P1" 0 1 [⟨"G", "P1", -1, 1, 1⟩]
    ⟨"G", "P1", -1, 1, 1⟩ (by decide) (Or.inl (by decide))

/-- C9: the `fake_picture_detected` flag is true exactly when some program
verdict of some group of the customer is a FAILed sentinel verdict, and it
does not depend on the customer's overall status. -/
theorem c9_exception_flag (res : CustomerResult) (s : Status) :
    (fake_picture_detected res = true ↔
      ∃ g ∈ res.group_results, ∃ p ∈ g.2.program_results,
        p.2.program_type = "fake_picture" ∧ p.2.pass_status = Status.FAIL) ∧
    fake_picture_detected { res with overall_status := s } =
      fake_picture_detected res := by
  constructor
  · simp [fake_picture_detected, List.any_eq_true, Bool.and_eq_true,
      beq_iff_eq, decide_eq_true_eq]
  · rfl

/-- C10: for a customer with no sentinel registration, sentinel audit rows
are inert. The whole evaluation is unchanged if those audit rows are
deleted up front (so they produce no verdict and cannot fail any group),
no sentinel program verdict appears in any group, and the exception flag
stays false. -/
theorem c10_unregistered_sentinel_inert (cid : String)
    (caudit : List AuditRow) (conds : List ConditionRow)
    (regs : List RegistrationRow)
    (h : ∀ r ∈ regs, r.customer_id = cid → r.program_type ≠ "fake_picture") :
    process_single_customer cid caudit conds regs =
      process_single_customer cid
        (caudit.filter (fun a => !(a.program_type == "fake_picture")))
        conds regs ∧
    (∀ g ∈ (process_single_customer cid caudit conds regs).group_results,
      ∀ p ∈ g.2.program_results, p.2.program_type ≠ "fake_picture") ∧
    fake_picture_detected (process_single_customer cid caudit conds regs) =
      false := by
  have h' : ∀ r ∈ regs.filter (fun r => r.customer_id == cid),
      r.program_type ≠ "fake_picture" := by
    intro r hr
    have hm := List.mem_filter.1 hr
    exact h r hm.1 (by simpa using hm.2)
  have hmg := merge_drop_sentinel caudit
    (regs.filter (fun r => r.customer_id == cid)) h'
  have hrows : ∀ m ∈ mergeAuditRegistration caudit
      (regs.filter (fun r => r.customer_id == cid)),
      m.program_type ≠ "fake_picture" := by
    intro m hm
    obtain ⟨r, hr, hpt, _⟩ := merge_rows_from_registration _ _ m hm
    rw [← hpt]
    exact h' r hr
  have hnos : ∀ g ∈ (process_single_customer cid caudit conds regs).group_results,
      ∀ p ∈ g.2.program_results, p.2.program_type ≠ "fake_picture" := by
    intro g hg
    simp only [process_single_customer] at hg
    split_ifs at hg with h1 h2
    · simp at hg
    · simp at hg
    · simp only [List.mem_map] at hg
      obtain ⟨gname, hgn, hge⟩ := hg
      intro p hp
      rw [← hge] at hp
      refine process_single_group_no_sentinel gname _ conds ?_ p hp
      intro r hr
      exact hrows r (List.mem_filter.1 hr).1
  refine ⟨?_, hnos, ?_⟩
  · simp only [process_single_customer]
    rw [hmg]
  · unfold fake_picture_detected
    rw [List.any_eq_false]
    intro g hg
    simp only [Bool.not_eq_true]
    rw [List.any_eq_false]
    intro p hp
    simp only [Bool.not_eq_true, Bool.and_eq_true, beq_iff_eq,
      decide_eq_true_eq, not_and]
    intro hpt
    exact absurd hpt (hnos g hg p hp)

/-- Witness for C10: customer C registered only for P1; an unregistered
sentinel audit row with measured value 7 changes nothing and leaves the
exception flag false. -/
theorem c10_unregistered_sentinel_inert_witness :
    process_single_customer "C"
        [⟨"C", "P1", "G", 5⟩, ⟨"C", "fake_picture", "G", 7⟩]
        [⟨"G", "P1", 1, 1, 1⟩] [⟨"C", "P1", 1⟩] =
      process_single_customer "C"
        ([⟨"C", "P1", "G", 5⟩, ⟨"C", "fake_picture", "G", 7⟩].filter
          (fun a => !(a.program_type == "fake_picture")))
        [⟨"G", "P1", 1, 1, 1⟩] [⟨"C", "P1", 1⟩] ∧
    fake_picture_detected (process_single_customer "C"
        [⟨"C", "P1", "G", 5⟩, ⟨"C", "fake_picture", "G", 7⟩]
        [⟨"G", "P1", 1, 1, 1⟩] [⟨"C", "P1", 1⟩]) = false :=
  ⟨(c10_unregistered_sentinel_inert "C"
      [⟨"C", "P1", "G", 5⟩, ⟨"C", "fake_picture", "G", 7⟩]
      [⟨"G", "P1", 1, 1, 1⟩] [⟨"C", "P1", 1⟩] (by decide)).1,
   (c10_unregistered_sentinel_inert "C"
      [⟨"C", "P1", "G", 5⟩, ⟨"C", "fake_picture", "G", 7⟩]
      [⟨"G", "P1", 1, 1, 1⟩] [⟨"C", "P1", 1⟩] (by decide)).2.2⟩
